import Mathlib

/-!
Shallow embedding of the persistence core of the Resource-Monitor-App
(`src/python/modules/database.py`, `performance.py`, `validation.py`).

The SQLite state is modelled as explicit lists of rows; timestamps are
integers (seconds); SQL numeric `REAL` fields are modelled as `Int`
(only sign and comparisons matter to the claims); the storage engine's
transient failures are injected through an explicit `fault : Bool`
parameter; Python exceptions become explicit error values threaded as
`Option DbError` / `Except DbError`.
-/

/-- Python `str.strip()`: drop leading and trailing whitespace. -/
def pyStrip (s : String) : String :=
  String.mk (((s.toList.dropWhile Char.isWhitespace).reverse.dropWhile
    Char.isWhitespace).reverse)

/-- One pass of Python `str.replace(pat, rep)` over a character list.
`fuel` only bounds recursion depth; each step consumes at least one input
character, so `fuel := input length` never truncates. -/
def replaceChars : List Char → List Char → List Char → Nat → List Char
  | _, _, _, 0 => []
  | [], _, _, _ => []
  | c :: cs, pat, rep, fuel + 1 =>
    if pat ≠ [] ∧ (c :: cs).take pat.length = pat then
      rep ++ replaceChars ((c :: cs).drop pat.length) pat rep fuel
    else
      c :: replaceChars cs pat rep fuel

/-- Python `s.replace(pat, rep)` (replaces every occurrence). -/
def pyReplace (s pat rep : String) : String :=
  String.mk (replaceChars s.toList pat.toList rep.toList s.toList.length)

/-- The exception taxonomy of `logging_config.py` restricted to the classes
the persistence core raises: `DatabaseError` and `ValidationError`. -/
inductive DbError where
  | databaseError (msg : String)
  | validationError (msg : String)
deriving DecidableEq, Repr

deriving instance DecidableEq for Except

/-- The character sequences `sanitize_pod_name` (validation.py) replaces
with an underscore. -/
def dangerousChars : List String :=
  ["\x27", "\x22", ";", "--", "/*", "*/", "xp_", "sp_"]

/-- The pure part of `sanitize_pod_name`: replace each dangerous sequence
with `_`, then `strip()`. -/
def sanitizeName (pod_name : String) : String :=
  pyStrip (dangerousChars.foldl (fun s c => pyReplace s c "_") pod_name)

/-- `sanitize_pod_name` (validation.py): raises `ValidationError` on an
empty name, otherwise replaces dangerous sequences and strips whitespace.
(The non-string branch and the log-only regex check are not modelled.) -/
def sanitize_pod_name (pod_name : String) : Except DbError String :=
  if pod_name = "" then .error (.validationError "Pod name cannot be empty")
  else .ok (sanitizeName pod_name)

/-- One row of the `pod_history` table (schema of `init_database`).
`ns` is the `namespace` column (`namespace` is a Lean keyword). -/
structure PodRow where
  timestamp : Int
  ns : String
  pod_name : String
  pod_type : String
  app_name : String
  status : String
  cpu_request : Int
  cpu_limit : Int
  cpu_usage : Int
  memory_request : Int
  memory_limit : Int
  memory_usage : Int
  node_name : Option String
  creation_timestamp : Option Int
  deletion_timestamp : Option Int
  labels : String
  annotations : String
  container_restarts : Int
  is_active : Bool
deriving DecidableEq, Repr, Inhabited

/-- One row of the `pod_events` table. -/
structure EventRow where
  timestamp : Int
  ns : String
  pod_name : String
  event_type : String
  event_reason : String
  event_message : String
  app_name : String
deriving DecidableEq, Repr, Inhabited

/-- The persisted state: the two tables, rows in insertion (rowid) order. -/
structure DB where
  pod_history : List PodRow
  pod_events : List EventRow
deriving DecidableEq, Repr, Inhabited

/-- The CHECK constraints of the `pod_history` schema (`init_database`):
`pod_type IN ('driver','executor')` and non-negativity of the six resource
columns and `container_restarts`. A row violating one makes the INSERT
fail with an engine error. -/
def violatesTableChecks (r : PodRow) : Bool :=
  (r.pod_type != "driver" && r.pod_type != "executor") ||
  decide (r.cpu_request < 0) || decide (r.cpu_limit < 0) ||
  decide (r.cpu_usage < 0) || decide (r.memory_request < 0) ||
  decide (r.memory_limit < 0) || decide (r.memory_usage < 0) ||
  decide (r.container_restarts < 0)

/-- One raw batch tuple as `store_pod_data_batch` receives it
(16 components). Numeric fields are `Option Int`: `none` models Python
`None` (coerced to `0.0` by normalization); `labels`/`annotations` are
`none` when the caller passes a non-string (serialized to `"\x7b\x7d"`,
the JSON empty object, in this model). -/
structure RawItem where
  ns : String
  pod_name : String
  pod_type : String
  app_name : String
  status : String
  cpu_req : Option Int
  cpu_lim : Option Int
  cpu_use : Option Int
  mem_req : Option Int
  mem_lim : Option Int
  mem_use : Option Int
  node_name : Option String
  creation_ts : Option Int
  labels : Option String
  annotations : Option String
  restarts : Option Int
deriving DecidableEq, Repr, Inhabited

/-- A normalized batch tuple (the value `normalize_and_validate` returns). -/
structure NormItem where
  ns : String
  pod_name : String
  pod_type : String
  app_name : String
  status : String
  cpu_req : Int
  cpu_lim : Int
  cpu_use : Int
  mem_req : Int
  mem_lim : Int
  mem_use : Int
  node_name : Option String
  creation_ts : Option Int
  labels : String
  annotations : String
  restarts : Int
deriving DecidableEq, Repr, Inhabited

/-- `normalize_and_validate` (inner function of `store_pod_data_batch`):
sanitizes the pod name (an invalid name aborts with a wrapped
`DatabaseError`), strips namespace/pod_type/app_name with their falsy
defaults, coerces `None` numerics to 0 and missing label/annotation maps
to the serialized empty object. -/
def normalize_and_validate (item : RawItem) : Except DbError NormItem :=
  match sanitize_pod_name item.pod_name with
  | .error _ => .error (.databaseError "Failed to normalize batch item")
  | .ok pname =>
    .ok { ns := if item.ns = "" then "" else pyStrip item.ns
        , pod_name := pname
        , pod_type := if item.pod_type = "" then "unknown" else pyStrip item.pod_type
        , app_name := if item.app_name = "" then pname else pyStrip item.app_name
        , status := item.status
        , cpu_req := item.cpu_req.getD 0
        , cpu_lim := item.cpu_lim.getD 0
        , cpu_use := item.cpu_use.getD 0
        , mem_req := item.mem_req.getD 0
        , mem_lim := item.mem_lim.getD 0
        , mem_use := item.mem_use.getD 0
        , node_name := item.node_name
        , creation_ts := item.creation_ts
        , labels := item.labels.getD "\x7b\x7d"
        , annotations := item.annotations.getD "\x7b\x7d"
        , restarts := item.restarts.getD 0 }

/-- The `pod_history` row a normalized batch tuple inserts: the shared
batch timestamp is prepended and `is_active` is set to 1. -/
def toPodRow (now : Int) (n : NormItem) : PodRow :=
  { timestamp := now
  , ns := n.ns
  , pod_name := n.pod_name
  , pod_type := n.pod_type
  , app_name := n.app_name
  , status := n.status
  , cpu_request := n.cpu_req
  , cpu_limit := n.cpu_lim
  , cpu_usage := n.cpu_use
  , memory_request := n.mem_req
  , memory_limit := n.mem_lim
  , memory_usage := n.mem_use
  , node_name := n.node_name
  , creation_timestamp := n.creation_ts
  , deletion_timestamp := none
  , labels := n.labels
  , annotations := n.annotations
  , container_restarts := n.restarts
  , is_active := true }

/-- Appending one row to `pod_history` (INSERT, autoincrement id order). -/
def insertRow (db : DB) (r : PodRow) : DB :=
  { db with pod_history := db.pod_history ++ [r] }

/-- `cursor.executemany` of the batch INSERT: rows are written one at a
time inside the open transaction; the first CHECK violation aborts with
an engine error, leaving the earlier rows of the batch pending. -/
def execMany : DB → List PodRow → DB × Option DbError
  | db, [] => (db, none)
  | db, r :: rs =>
    if violatesTableChecks r then
      (db, some (.databaseError "CHECK constraint failed"))
    else execMany (insertRow db r) rs

/-- The transaction discipline of `HistoryManager._get_connection`: on
success the pending writes are committed; on an engine error the
connection is rolled back, restoring the state at entry. -/
def withTransaction (db : DB) (f : DB → DB × Option DbError) :
    DB × Option DbError :=
  match f db with
  | (db2, none) => (db2, none)
  | (_, some e) => (db, some e)

/-- The body of the batch-insert transaction: the `executemany` writes,
then the injected engine failure (if any) striking before commit. -/
def batchTxnBody (fault : Bool) (rows : List PodRow) (d : DB) :
    DB × Option DbError :=
  match execMany d rows with
  | (d2, some e) => (d2, some e)
  | (d2, none) =>
    if fault then (d2, some (.databaseError "Database operation failed"))
    else (d2, none)

/-- `HistoryManager.store_pod_data_batch`: an empty batch returns at once
without touching storage; otherwise every tuple is normalized first (any
failure aborts before the database is touched), one shared timestamp
`now` is stamped on every row, and all rows are written by one
`executemany` inside one transaction. `fault` injects an engine failure
during the write (before commit). -/
def store_pod_data_batch (fault : Bool) (db : DB) (now : Int)
    (items : List RawItem) : DB × Option DbError :=
  if items = [] then (db, none)
  else
    match items.mapM normalize_and_validate with
    | .error _ => (db, some (.databaseError "Batch insert operation failed"))
    | .ok normalized =>
      withTransaction db (batchTxnBody fault (normalized.map (toPodRow now)))

/-- `pod.metadata` of the Kubernetes pod object `store_pod_data` receives.
`labels`/`annotations` are `none` when absent (serialized to the JSON
empty object `"\x7b\x7d"`); `creation_timestamp` is modelled as an
integer instant. -/
structure PodMetadata where
  name : String
  labels : Option String
  annotations : Option String
  creation_timestamp : Option Int
deriving DecidableEq, Repr

/-- `pod.spec` (only `node_name` is read). -/
structure PodSpec where
  node_name : Option String
deriving DecidableEq, Repr

/-- `pod.status`: the phase text and the per-container restart counts. -/
structure PodStatus where
  phase : String
  container_restart_counts : List Int
deriving DecidableEq, Repr

/-- The pod object handed to `store_pod_data`. -/
structure Pod where
  metadata : PodMetadata
  spec : PodSpec
  status : PodStatus
deriving DecidableEq, Repr

/-- The resource-request/limit dict: `none` models a missing key
(`resources.get(key, 0)` yields the default 0). -/
structure ResourceSpec where
  cpu_request : Option Int
  cpu_limit : Option Int
  memory_request : Option Int
  memory_limit : Option Int
deriving DecidableEq, Repr

/-- The usage-metrics dict (`metrics.get(key, 0)`). -/
structure UsageMetrics where
  cpu_usage : Option Int
  memory_usage : Option Int
deriving DecidableEq, Repr

/-- `HistoryManager.store_pod_data`: sanitize the name, sum container
restarts, build one `pod_history` row with `is_active = 1` and the call
instant `now` as its timestamp, and insert it; a CHECK violation or an
injected engine `fault` fails the call with a wrapped `DatabaseError`
and stores nothing. -/
def store_pod_data (fault : Bool) (db : DB) (now : Int) (ns : String)
    (pod : Pod) (pod_type app_name : String) (resources : ResourceSpec)
    (metrics : UsageMetrics) : DB × Option DbError :=
  match sanitize_pod_name pod.metadata.name with
  | .error _ => (db, some (.databaseError "Failed to store pod data"))
  | .ok pname =>
    let row : PodRow :=
      { timestamp := now
      , ns := pyStrip ns
      , pod_name := pname
      , pod_type := pod_type
      , app_name := if app_name = "" then pname else pyStrip app_name
      , status := pod.status.phase
      , cpu_request := resources.cpu_request.getD 0
      , cpu_limit := resources.cpu_limit.getD 0
      , cpu_usage := metrics.cpu_usage.getD 0
      , memory_request := resources.memory_request.getD 0
      , memory_limit := resources.memory_limit.getD 0
      , memory_usage := metrics.memory_usage.getD 0
      , node_name := pod.spec.node_name
      , creation_timestamp := pod.metadata.creation_timestamp
      , deletion_timestamp := none
      , labels := pod.metadata.labels.getD "\x7b\x7d"
      , annotations := pod.metadata.annotations.getD "\x7b\x7d"
      , container_restarts := pod.status.container_restart_counts.foldl (· + ·) 0
      , is_active := true }
    if violatesTableChecks row then
      (db, some (.databaseError "Failed to store pod data"))
    else if fault then (db, some (.databaseError "Failed to store pod data"))
    else (insertRow db row, none)

/-- The row update of `mark_pods_inactive`'s UPDATE statement. -/
def deactivateRow (now : Int) (r : PodRow) : PodRow :=
  { r with is_active := false, deletion_timestamp := some now }

/-- `HistoryManager.mark_pods_inactive`: strip the namespace, sanitize
every observed name (a failure aborts with a wrapped `DatabaseError`
before the database is touched), then flip `is_active` and set
`deletion_timestamp` on every active row of the namespace whose
`pod_name` is not among the sanitized names; with no observed names the
UPDATE has no `NOT IN` clause and hits every active row of the
namespace. -/
def mark_pods_inactive (fault : Bool) (db : DB) (now : Int) (ns : String)
    (active_pod_names : List String) : DB × Option DbError :=
  let ns2 := pyStrip ns
  match active_pod_names.mapM sanitize_pod_name with
  | .error _ => (db, some (.databaseError "Failed to mark pods inactive"))
  | .ok names =>
    if fault then (db, some (.databaseError "Failed to mark pods inactive"))
    else if names ≠ [] then
      ({ db with pod_history := db.pod_history.map (fun r =>
          if r.ns = ns2 ∧ r.is_active = true ∧ r.pod_name ∉ names then
            deactivateRow now r
          else r) }, none)
    else
      ({ db with pod_history := db.pod_history.map (fun r =>
          if r.ns = ns2 ∧ r.is_active = true then deactivateRow now r
          else r) }, none)

/-- `HistoryManager.log_pod_event`: append one `pod_events` row, with the
message truncated to 1000 characters and the usual falsy defaults. -/
def log_pod_event (fault : Bool) (db : DB) (now : Int) (ns pod_name
    event_type reason message app_name : String) : DB × Option DbError :=
  match sanitize_pod_name pod_name with
  | .error _ => (db, some (.databaseError "Failed to log pod event"))
  | .ok pname =>
    if fault then (db, some (.databaseError "Failed to log pod event"))
    else
      ({ db with pod_events := db.pod_events ++
          [{ timestamp := now
           , ns := if ns = "" then "" else pyStrip ns
           , pod_name := pname
           , event_type := if event_type = "" then "unknown" else pyStrip event_type
           , event_reason := if reason = "" then "" else pyStrip reason
           , event_message := String.mk (message.toList.take 1000)
           , app_name := if app_name = "" then pname else pyStrip app_name }] },
       none)

/-- Seconds per day: `datetime('now', '-N days')` subtracts N of these. -/
def secondsPerDay : Int := 86400

/-- Seconds per hour: `datetime('now', '-N hours')` subtracts N of these. -/
def secondsPerHour : Int := 3600

/-- The result dict of `cleanup_old_data`. -/
structure CleanupResult where
  history_records_deleted : Nat
  events_deleted : Nat
  retention_days : Int
deriving DecidableEq, Repr

/-- `HistoryManager.cleanup_old_data`: clamp the retention into [1, 365],
delete every `pod_history` and `pod_events` row strictly older than
`now` minus the clamped number of days, and return both `rowcount`s with
the effective retention. The post-delete VACUUM is best-effort and has no
effect on the data model, so it is not modelled; `fault` injects an
engine failure during the deletes (rolled back, wrapped). -/
def cleanup_old_data (fault : Bool) (db : DB) (now : Int)
    (retention_days : Int) : DB × Except DbError CleanupResult :=
  if fault then (db, .error (.databaseError "Database cleanup failed"))
  else
    let days := max 1 (min 365 retention_days)
    let cutoff := now - days * secondsPerDay
    ({ pod_history := db.pod_history.filter (fun r => !decide (r.timestamp < cutoff))
     , pod_events := db.pod_events.filter (fun r => !decide (r.timestamp < cutoff)) },
     .ok { history_records_deleted :=
             db.pod_history.countP (fun r => decide (r.timestamp < cutoff))
         , events_deleted :=
             db.pod_events.countP (fun r => decide (r.timestamp < cutoff))
         , retention_days := days })

/-- `ORDER BY timestamp DESC` on `pod_history` rows. -/
def tsDesc (a b : PodRow) : Prop := b.timestamp ≤ a.timestamp

instance : DecidableRel tsDesc := fun _ _ => Int.decLe _ _

instance : IsTotal PodRow tsDesc := ⟨fun a b => le_total b.timestamp a.timestamp⟩

instance : IsTrans PodRow tsDesc := ⟨fun _ _ _ h1 h2 => le_trans h2 h1⟩

/-- `ORDER BY timestamp` (ascending) on `pod_history` rows. -/
def tsAsc (a b : PodRow) : Prop := a.timestamp ≤ b.timestamp

instance : DecidableRel tsAsc := fun _ _ => Int.decLe _ _

instance : IsTotal PodRow tsAsc := ⟨fun a b => le_total a.timestamp b.timestamp⟩

instance : IsTrans PodRow tsAsc := ⟨fun _ _ _ h1 h2 => le_trans h1 h2⟩

/-- `ORDER BY timestamp` (ascending) on `pod_events` rows. -/
def evTsAsc (a b : EventRow) : Prop := a.timestamp ≤ b.timestamp

instance : DecidableRel evTsAsc := fun _ _ => Int.decLe _ _

instance : IsTotal EventRow evTsAsc := ⟨fun a b => le_total a.timestamp b.timestamp⟩

instance : IsTrans EventRow evTsAsc := ⟨fun _ _ _ h1 h2 => le_trans h1 h2⟩

/-- The optional `AND app_name = ?` clause of `get_historical_data`,
appended only when the `app_name` argument is truthy; the bound value is
the stripped name. -/
def appNameClause (app_name : Option String) (r : PodRow) : Bool :=
  match app_name with
  | none => true
  | some a => if a = "" then true else r.app_name == pyStrip a

/-- `HistoryManager.get_historical_data`: rows of the stripped namespace
with `timestamp >= datetime('now', '-hours_back hours')`, the optional
`app_name` filter (skipped when falsy), `ORDER BY timestamp DESC LIMIT
10000`. An engine failure propagates as a wrapped `DatabaseError`. -/
def get_historical_data (fault : Bool) (db : DB) (now : Int) (ns : String)
    (hours_back : Int) (app_name : Option String) :
    Except DbError (List PodRow) :=
  if fault then .error (.databaseError "Failed to retrieve historical data")
  else
    let ns2 := pyStrip ns
    let cutoff := now - hours_back * secondsPerHour
    let rows := db.pod_history.filter (fun r =>
      r.ns == ns2 && decide (cutoff ≤ r.timestamp) && appNameClause app_name r)
    .ok ((List.insertionSort tsDesc rows).take 10000)

/-- `HistoryManager.get_pod_timeline`: the `pod_history` rows (oldest
first, capped at 5000) and `pod_events` rows (oldest first, capped at
1000) of one `(namespace, pod_name)`. An engine failure propagates as a
wrapped `DatabaseError`. -/
def get_pod_timeline (fault : Bool) (db : DB) (ns pod_name : String) :
    Except DbError (List PodRow × List EventRow) :=
  match sanitize_pod_name pod_name with
  | .error _ => .error (.databaseError "Failed to retrieve pod timeline")
  | .ok pname =>
    if fault then .error (.databaseError "Failed to retrieve pod timeline")
    else
      let ns2 := pyStrip ns
      .ok ((List.insertionSort tsAsc (db.pod_history.filter (fun r =>
              r.ns == ns2 && r.pod_name == pname))).take 5000,
           (List.insertionSort evTsAsc (db.pod_events.filter (fun e =>
              e.ns == ns2 && e.pod_name == pname))).take 1000)

/-- One exported row: the column values in schema order, serialized with
one canonical delimiter (stands in for `DataFrame.to_json`/`to_csv`). -/
def renderRow (r : PodRow) : String :=
  String.intercalate "," [toString r.timestamp, r.ns, r.pod_name, r.pod_type,
    r.app_name, r.status, toString r.cpu_request, toString r.cpu_limit,
    toString r.cpu_usage, toString r.memory_request, toString r.memory_limit,
    toString r.memory_usage, toString r.container_restarts, toString r.is_active]

/-- `HistoryManager.export_historical_data`: reject an unsupported format
(wrapped `DatabaseError`), select rows of the namespace with `timestamp
BETWEEN start_dt AND end_dt`, newest first, capped at 50000, and
serialize them. The bare-date widening to 00:00:00 / 23:59:59 happens in
the string domain; here `start_dt`/`end_dt` are the resolved instants.
An engine failure propagates as a wrapped `DatabaseError`. -/
def export_historical_data (fault : Bool) (db : DB) (ns : String)
    (start_dt end_dt : Int) (format : String) : Except DbError String :=
  let fmt := pyStrip format.toLower
  if fmt ≠ "json" ∧ fmt ≠ "csv" then
    .error (.databaseError "Data export failed")
  else if fault then .error (.databaseError "Data export failed")
  else
    let rows := (List.insertionSort tsDesc (db.pod_history.filter (fun r =>
      r.ns == pyStrip ns && decide (start_dt ≤ r.timestamp) &&
      decide (r.timestamp ≤ end_dt)))).take 50000
    if fmt = "json" then
      .ok ("[" ++ String.intercalate "," (rows.map renderRow) ++ "]")
    else
      .ok (String.intercalate "\n" (rows.map renderRow))

/-- `MAX(timestamp)` of one pod name over a row scope (the correlated
subquery of `list_pod_names`' ORDER BY). -/
def maxTsFor (rows : List PodRow) (name : String) : Int :=
  (rows.filter (fun r => r.pod_name == name)).foldl
    (fun acc r => max acc r.timestamp) 0

/-- The ORDER BY of `list_pod_names`: most recent activity first. -/
def recentFirst (rows : List PodRow) (a b : String) : Prop :=
  maxTsFor rows b ≤ maxTsFor rows a

instance (rows : List PodRow) : DecidableRel (recentFirst rows) :=
  fun _ _ => Int.decLe _ _

/-- `HistoryManager.list_pod_names`: distinct pod names (of one namespace
when a truthy one is given) ordered by each name's most recent timestamp,
descending. Unlike the other query methods, its `except` handler swallows
every failure and returns the empty list. -/
def list_pod_names (fault : Bool) (db : DB) (ns : Option String) :
    Except DbError (List String) :=
  if fault then .ok []
  else
    let rows := match ns with
      | some n => if n = "" then db.pod_history
                  else db.pod_history.filter (fun r => r.ns == pyStrip n)
      | none => db.pod_history
    .ok (List.insertionSort (recentFirst rows)
          ((rows.map (fun r => r.pod_name)).eraseDups))

/-- The stats dict of `get_database_stats` (the page-size/date-range
engine metrics are environment values outside the data model). -/
structure DbStats where
  total_records : Nat
  total_events : Nat
  active_pods : Nat
  journal_mode : String
  health_status : String
  error_msg : Option String
deriving DecidableEq, Repr

/-- `HistoryManager.get_database_stats`: row counts, active count and a
health flag (healthy only under WAL journaling); on any failure it
degrades to a best-effort result carrying `health_status = "error"` and
the error text instead of raising. -/
def get_database_stats (fault : Bool) (db : DB) (journal_mode : String) :
    DbStats :=
  if fault then
    { total_records := 0, total_events := 0, active_pods := 0
    , journal_mode := "", health_status := "error"
    , error_msg := some "Failed to get database stats" }
  else
    { total_records := db.pod_history.length
    , total_events := db.pod_events.length
    , active_pods := (db.pod_history.filter (fun r => r.is_active)).length
    , journal_mode := journal_mode
    , health_status := if journal_mode = "wal" then "healthy" else "warning"
    , error_msg := none }

/-- `DatabaseConnectionPool` (performance.py): bookkeeping state under the
pool's one mutex. Handles are modelled by numeric identities;
`next_handle` stands for `sqlite3.connect` creating a fresh handle. -/
structure DatabaseConnectionPool where
  max_connections : Nat
  available_connections : List Nat
  in_use_connections : List Nat
  next_handle : Nat
deriving DecidableEq, Repr

/-- A freshly constructed pool: no handles opened yet. -/
def mkPool (max_connections : Nat) : DatabaseConnectionPool :=
  { max_connections := max_connections, available_connections := []
  , in_use_connections := [], next_handle := 0 }

/-- `DatabaseConnectionPool.get_connection`: reuse an idle handle if one
exists; else open a fresh handle while under `max_connections`; else fail
fast returning `none` (the pool's distinguished exhaustion signal — it
never blocks and never raises). The initial sweep dropping `None` entries
from the idle deque is a no-op here since handles are never `None`. -/
def get_connection (p : DatabaseConnectionPool) :
    Option Nat × DatabaseConnectionPool :=
  match p.available_connections with
  | c :: rest =>
    (some c,
     { p with
        available_connections := rest
        in_use_connections := c :: p.in_use_connections })
  | [] =>
    if p.in_use_connections.length < p.max_connections then
      (some p.next_handle,
       { p with
          in_use_connections := p.next_handle :: p.in_use_connections
          next_handle := p.next_handle + 1 })
    else (none, p)

/-- `DatabaseConnectionPool.return_connection`: `None` and handles not in
the in-use set are ignored; a released in-use handle goes back to the
idle deque while it is below capacity, otherwise the handle is closed
(the returned flag records whether a close happened). -/
def return_connection (p : DatabaseConnectionPool) (conn : Option Nat) :
    DatabaseConnectionPool × Bool :=
  match conn with
  | none => (p, false)
  | some c =>
    if c ∈ p.in_use_connections then
      let p2 := { p with in_use_connections := p.in_use_connections.erase c }
      if p2.available_connections.length < p.max_connections then
        ({ p2 with available_connections := p2.available_connections ++ [c] },
         false)
      else (p2, true)
    else (p, false)

/-- `k` successive `get_connection` calls with no release in between. -/
def acquireN : DatabaseConnectionPool → Nat →
    List (Option Nat) × DatabaseConnectionPool
  | p, 0 => ([], p)
  | p, k + 1 =>
    let acc := acquireN p k
    let step := get_connection acc.2
    (acc.1 ++ [step.1], step.2)

/-! ### Concrete example values used by witnesses and counterexamples -/

/-- A well-formed batch tuple (normalizes and inserts cleanly). -/
def itemGood : RawItem :=
  { ns := "ns1", pod_name := "pod-a", pod_type := "driver", app_name := "app1"
  , status := "Running", cpu_req := some 1, cpu_lim := some 2, cpu_use := some 1
  , mem_req := some 100, mem_lim := some 200, mem_use := some 150
  , node_name := some "n1", creation_ts := some 5, labels := some "k:v"
  , annotations := some "k:v", restarts := some 0 }

/-- A second well-formed batch tuple. -/
def itemGood2 : RawItem :=
  { itemGood with pod_name := "pod-b", pod_type := "executor" }

/-- A batch tuple with a negative resource value. -/
def itemNeg : RawItem := { itemGood with cpu_req := some (-1) }

/-- A structurally malformed batch tuple (empty pod name). -/
def itemBadName : RawItem := { itemGood with pod_name := "" }

/-- The empty database. -/
def emptyDB : DB := { pod_history := [], pod_events := [] }

/-! ### Helper lemmas -/

theorem exceptMapM_isOk_false_of_mem {α β : Type} (f : α → Except DbError β)
    (l : List α) (a : α) (ha : a ∈ l) (hfa : (f a).isOk = false) :
    (l.mapM f).isOk = false := by
  induction l with
  | nil => cases ha
  | cons x xs ih =>
    rw [List.mapM_cons]
    rcases hx : f x with e | b
    · rfl
    · rcases List.mem_cons.mp ha with h | h
      · subst h; rw [hx] at hfa; simp [Except.isOk, Except.toBool] at hfa
      · have hh := ih h
        rcases hxs : xs.mapM f with e2 | ys
        · rfl
        · rw [hxs] at hh; simp [Except.isOk, Except.toBool] at hh

theorem exceptMapM_map {α β : Type} (f : α → Except DbError β) (g : α → β)
    (l : List α) (h : ∀ a ∈ l, f a = .ok (g a)) : l.mapM f = .ok (l.map g) := by
  induction l with
  | nil => rfl
  | cons x xs ih =>
    rw [List.mapM_cons, h x (List.mem_cons_self x xs),
      ih (fun a ha => h a (List.mem_cons_of_mem x ha))]
    rfl

theorem exceptMapM_mem_rev {α β : Type} (f : α → Except DbError β)
    (l : List α) (ys : List β) (h : l.mapM f = .ok ys) :
    ∀ y ∈ ys, ∃ x ∈ l, f x = .ok y := by
  induction l generalizing ys with
  | nil =>
    rw [List.mapM_nil] at h
    cases h
    intro y hy; cases hy
  | cons x xs ih =>
    rw [List.mapM_cons] at h
    rcases hx : f x with e | b
    · rw [hx] at h; cases h
    · rw [hx] at h
      rcases hxs : xs.mapM f with e2 | bs
      · rw [hxs] at h; cases h
      · rw [hxs] at h
        have h2 : Except.ok (ε := DbError) (b :: bs) = Except.ok ys := h
        have h3 := Except.ok.inj h2
        subst h3
        intro y hy
        rcases List.mem_cons.mp hy with h4 | h4
        · exact ⟨x, List.mem_cons_self x xs, h4 ▸ hx⟩
        · rcases ih bs hxs y h4 with ⟨x2, hx2, hfx2⟩
          exact ⟨x2, List.mem_cons_of_mem x hx2, hfx2⟩

theorem exceptMapM_mem_fwd {α β : Type} (f : α → Except DbError β)
    (l : List α) (ys : List β) (h : l.mapM f = .ok ys) :
    ∀ x ∈ l, ∃ y ∈ ys, f x = .ok y := by
  induction l generalizing ys with
  | nil => intro x hx; cases hx
  | cons x xs ih =>
    rw [List.mapM_cons] at h
    rcases hx : f x with e | b
    · rw [hx] at h; cases h
    · rw [hx] at h
      rcases hxs : xs.mapM f with e2 | bs
      · rw [hxs] at h; cases h
      · rw [hxs] at h
        have h2 : Except.ok (ε := DbError) (b :: bs) = Except.ok ys := h
        have h3 := Except.ok.inj h2
        subst h3
        intro z hz
        rcases List.mem_cons.mp hz with h4 | h4
        · exact ⟨b, List.mem_cons_self b bs, h4 ▸ hx⟩
        · rcases ih bs hxs z h4 with ⟨y, hy, hfy⟩
          exact ⟨y, List.mem_cons_of_mem b hy, hfy⟩

theorem exceptMapM_ok_of_forall {α β : Type} (f : α → Except DbError β)
    (l : List α) (h : ∀ a ∈ l, ∃ b, f a = .ok b) :
    ∃ ys, l.mapM f = .ok ys := by
  induction l with
  | nil => exact ⟨[], rfl⟩
  | cons x xs ih =>
    rcases h x (List.mem_cons_self x xs) with ⟨b, hb⟩
    rcases ih (fun a ha => h a (List.mem_cons_of_mem x ha)) with ⟨ys, hys⟩
    exact ⟨b :: ys, by rw [List.mapM_cons, hb, hys]; rfl⟩

theorem execMany_eq_of_valid (rows : List PodRow) (db : DB)
    (h : ∀ r ∈ rows, violatesTableChecks r = false) :
    execMany db rows = ({ db with pod_history := db.pod_history ++ rows }, none) := by
  induction rows generalizing db with
  | nil => simp [execMany]
  | cons r rs ih =>
    rw [execMany, if_neg (by rw [h r (List.mem_cons_self r rs)]; exact Bool.false_ne_true)]
    rw [ih (insertRow db r) (fun x hx => h x (List.mem_cons_of_mem r hx))]
    simp [insertRow]

theorem execMany_none_valid (rows : List PodRow) (db : DB)
    (h : (execMany db rows).2 = none) :
    ∀ r ∈ rows, violatesTableChecks r = false := by
  induction rows generalizing db with
  | nil => intro r hr; cases hr
  | cons r rs ih =>
    rw [execMany] at h
    by_cases hv : violatesTableChecks r = true
    · rw [if_pos hv] at h; cases h
    · intro x hx
      rcases List.mem_cons.mp hx with h2 | h2
      · subst h2; exact Bool.not_eq_true _ ▸ hv
      · rw [if_neg hv] at h
        exact ih (insertRow db r) h x h2

theorem withTransaction_of_none (db d2 : DB) (f : DB → DB × Option DbError)
    (h : f db = (d2, none)) : withTransaction db f = (d2, none) := by
  unfold withTransaction
  rw [h]

theorem withTransaction_of_some (db d2 : DB) (e : DbError)
    (f : DB → DB × Option DbError) (h : f db = (d2, some e)) :
    withTransaction db f = (db, some e) := by
  unfold withTransaction
  rw [h]

theorem batchTxnBody_of_execMany_some (fault : Bool) (rows : List PodRow)
    (d d2 : DB) (e : DbError) (h : execMany d rows = (d2, some e)) :
    batchTxnBody fault rows d = (d2, some e) := by
  unfold batchTxnBody
  rw [h]

theorem batchTxnBody_of_execMany_none (fault : Bool) (rows : List PodRow)
    (d d2 : DB) (h : execMany d rows = (d2, none)) :
    batchTxnBody fault rows d =
      (if fault then (d2, some (.databaseError "Database operation failed"))
       else (d2, none)) := by
  unfold batchTxnBody
  rw [h]

theorem store_batch_txn_err (fault : Bool) (db : DB) (now : Int)
    (items : List RawItem) (hne : items ≠ []) (normalized : List NormItem)
    (hm : items.mapM normalize_and_validate = Except.ok normalized)
    (e : DbError)
    (h : batchTxnBody fault (normalized.map (toPodRow now)) db =
      ((batchTxnBody fault (normalized.map (toPodRow now)) db).1, some e)) :
    store_pod_data_batch fault db now items = (db, some e) := by
  rw [store_pod_data_batch, if_neg hne, hm]
  exact withTransaction_of_some db _ e _ h

theorem store_batch_fst_of_err (fault : Bool) (db : DB) (now : Int)
    (items : List RawItem)
    (h : (store_pod_data_batch fault db now items).2.isSome = true) :
    (store_pod_data_batch fault db now items).1 = db := by
  rw [store_pod_data_batch] at h ⊢
  by_cases hempty : items = []
  · rw [if_pos hempty] at h; cases h
  · rw [if_neg hempty] at h ⊢
    rcases hm : items.mapM normalize_and_validate with e | normalized
    · rfl
    · rw [hm] at h
      show (withTransaction db (batchTxnBody fault (normalized.map (toPodRow now)))).1 = db
      replace h : (withTransaction db
        (batchTxnBody fault (normalized.map (toPodRow now)))).2.isSome = true := h
      rcases hex : execMany db (normalized.map (toPodRow now)) with ⟨d2, err⟩
      cases err with
      | some e =>
        rw [withTransaction_of_some db d2 e _
          (batchTxnBody_of_execMany_some fault _ db d2 e hex)]
      | none =>
        have hbody := batchTxnBody_of_execMany_none fault _ db d2 hex
        cases fault with
        | true =>
          rw [if_pos rfl] at hbody
          rw [withTransaction_of_some db d2 _ _ hbody]
        | false =>
          rw [if_neg (by exact Bool.false_ne_true)] at hbody
          rw [withTransaction_of_none db d2 _ hbody] at h
          simp at h

theorem store_batch_success (fault : Bool) (db : DB) (now : Int)
    (items : List RawItem) (db2 : DB)
    (h : store_pod_data_batch fault db now items = (db2, none)) :
    ∃ normalized, items.mapM normalize_and_validate = Except.ok normalized ∧
      db2.pod_history = db.pod_history ++ normalized.map (toPodRow now) ∧
      db2.pod_events = db.pod_events ∧
      (∀ r ∈ normalized.map (toPodRow now), violatesTableChecks r = false) := by
  by_cases hempty : items = []
  · subst hempty
    rw [store_pod_data_batch, if_pos rfl] at h
    have hdb : db = db2 := congrArg Prod.fst h
    subst hdb
    exact ⟨[], rfl, by simp, rfl, by simp⟩
  · rw [store_pod_data_batch, if_neg hempty] at h
    rcases hm : items.mapM normalize_and_validate with e | normalized
    · rw [hm] at h
      replace h : (db, some (DbError.databaseError "Batch insert operation failed")) =
        (db2, none) := h
      simp at h
    · rw [hm] at h
      replace h : withTransaction db
        (batchTxnBody fault (normalized.map (toPodRow now))) = (db2, none) := h
      rcases hex : execMany db (normalized.map (toPodRow now)) with ⟨d2, err⟩
      cases err with
      | some e =>
        rw [withTransaction_of_some db d2 e _
          (batchTxnBody_of_execMany_some fault _ db d2 e hex)] at h
        simp at h
      | none =>
        have hvalid := execMany_none_valid (normalized.map (toPodRow now)) db
          (by rw [hex])
        have hbody := batchTxnBody_of_execMany_none fault _ db d2 hex
        cases fault with
        | true =>
          rw [if_pos rfl] at hbody
          rw [withTransaction_of_some db d2 _ _ hbody] at h
          simp at h
        | false =>
          rw [if_neg (by exact Bool.false_ne_true)] at hbody
          rw [withTransaction_of_none db d2 _ hbody] at h
          have hd2 : d2 = { db with
              pod_history := db.pod_history ++ normalized.map (toPodRow now) } := by
            have hcalc := execMany_eq_of_valid (normalized.map (toPodRow now)) db hvalid
            rw [hex] at hcalc
            exact congrArg Prod.fst hcalc
          have hdb2 : d2 = db2 := congrArg Prod.fst h
          subst hdb2
          rw [hd2]
          exact ⟨normalized, rfl, rfl, rfl, hvalid⟩

theorem store_batch_err_of_fault (db : DB) (now : Int) (items : List RawItem)
    (hne : items ≠ []) :
    (store_pod_data_batch true db now items).2.isSome = true := by
  rw [store_pod_data_batch, if_neg hne]
  rcases hm : items.mapM normalize_and_validate with e | normalized
  · rfl
  · show (withTransaction db (batchTxnBody true (normalized.map (toPodRow now)))).2.isSome = true
    rcases hex : execMany db (normalized.map (toPodRow now)) with ⟨d2, err⟩
    cases err with
    | some e =>
      rw [withTransaction_of_some db d2 e _
        (batchTxnBody_of_execMany_some true _ db d2 e hex)]
      rfl
    | none =>
      have hbody := batchTxnBody_of_execMany_none true _ db d2 hex
      rw [if_pos rfl] at hbody
      rw [withTransaction_of_some db d2 _ _ hbody]
      rfl

/-- C1 (batch-insert atomicity): for a non-empty batch, any failure —
structurally malformed row during normalization, a row failing the
schema CHECKs during the write, or an injected engine fault — leaves
`pod_history` exactly as it was and surfaces an error (conjuncts 1-2);
when the call succeeds, precisely the whole batch was appended
(conjunct 3); and with every row normalizing and passing the CHECKs and
no engine fault, the call does succeed (conjunct 4). -/
theorem store_pod_data_batch_atomic (fault : Bool) (db : DB) (now : Int)
    (items : List RawItem) (hne : items ≠ []) :
    ((store_pod_data_batch fault db now items).2.isSome = true →
      (store_pod_data_batch fault db now items).1 = db) ∧
    ((∃ i ∈ items, (normalize_and_validate i).isOk = false) ∨ fault = true →
      (store_pod_data_batch fault db now items).2.isSome = true) ∧
    ((store_pod_data_batch fault db now items).2 = none →
      ∃ normalized, items.mapM normalize_and_validate = Except.ok normalized ∧
        (store_pod_data_batch fault db now items).1.pod_history =
          db.pod_history ++ normalized.map (toPodRow now) ∧
        (store_pod_data_batch fault db now items).1.pod_events =
          db.pod_events) ∧
    ((∀ i ∈ items, ∃ n, normalize_and_validate i = Except.ok n ∧
        violatesTableChecks (toPodRow now n) = false) → fault = false →
      (store_pod_data_batch fault db now items).2 = none) := by
  refine ⟨store_batch_fst_of_err fault db now items, ?_, ?_, ?_⟩
  · intro h
    rcases h with ⟨i, hi, hbad⟩ | hf
    · have hmok := exceptMapM_isOk_false_of_mem normalize_and_validate items i hi hbad
      rw [store_pod_data_batch, if_neg hne]
      rcases hm : items.mapM normalize_and_validate with e | normalized
      · rfl
      · rw [hm] at hmok
        simp [Except.isOk, Except.toBool] at hmok
    · subst hf
      exact store_batch_err_of_fault db now items hne
  · intro h
    obtain ⟨normalized, hmap, hh, he, _⟩ :=
      store_batch_success fault db now items
        (store_pod_data_batch fault db now items).1 (by rw [← h])
    exact ⟨normalized, hmap, hh, he⟩
  · intro hall hf
    subst hf
    obtain ⟨ys, hys⟩ := exceptMapM_ok_of_forall normalize_and_validate items
      (fun a ha => by rcases hall a ha with ⟨n, hn, _⟩; exact ⟨n, hn⟩)
    have hvalid : ∀ r ∈ ys.map (toPodRow now), violatesTableChecks r = false := by
      intro r hr
      rcases List.mem_map.mp hr with ⟨n, hn, rfl⟩
      rcases exceptMapM_mem_rev normalize_and_validate items ys hys n hn with
        ⟨x, hx, hfx⟩
      rcases hall x hx with ⟨n2, hn2, hv⟩
      have heq : n = n2 := Except.ok.inj (hfx.symm.trans hn2)
      rw [heq]
      exact hv
    rw [store_pod_data_batch, if_neg hne, hys]
    show (withTransaction db (batchTxnBody false (ys.map (toPodRow now)))).2 = none
    have hex := execMany_eq_of_valid (ys.map (toPodRow now)) db hvalid
    have hbody := batchTxnBody_of_execMany_none false (ys.map (toPodRow now)) db _ hex
    rw [if_neg (by simp)] at hbody
    rw [withTransaction_of_none db _ _ hbody]

/-- Witness for C1: a batch containing an empty pod name fails and leaves
the empty database untouched. -/
theorem store_pod_data_batch_atomic_witness :
    (store_pod_data_batch false emptyDB 7 [itemBadName]).1 = emptyDB :=
  (store_pod_data_batch_atomic false emptyDB 7 [itemBadName] (by decide)).1
    (by decide)

/-- C8 (shared batch timestamp): every row a successful
`store_pod_data_batch` call adds to `pod_history` carries the single
timestamp `now` captured once during that call. -/
theorem batch_rows_share_timestamp (fault : Bool) (db : DB) (now : Int)
    (items : List RawItem) (db2 : DB)
    (h : store_pod_data_batch fault db now items = (db2, none)) :
    ∀ r ∈ db2.pod_history, r ∈ db.pod_history ∨ r.timestamp = now := by
  obtain ⟨normalized, hmap, hh, he, hv⟩ :=
    store_batch_success fault db now items db2 h
  intro r hr
  rw [hh] at hr
  rcases List.mem_append.mp hr with h1 | h1
  · exact Or.inl h1
  · rcases List.mem_map.mp h1 with ⟨n, hn, rfl⟩
    exact Or.inr rfl

/-- Witness for C8 at a concrete one-row batch stamped with 7. -/
theorem batch_rows_share_timestamp_witness :
    (store_pod_data_batch false emptyDB 7 [itemGood]).1.pod_history.headI ∈
      emptyDB.pod_history ∨
    (store_pod_data_batch false emptyDB 7
      [itemGood]).1.pod_history.headI.timestamp = 7 :=
  batch_rows_share_timestamp false emptyDB 7 [itemGood]
    (store_pod_data_batch false emptyDB 7 [itemGood]).1 (by decide) _ (by decide)

/-- C9 (empty-batch no-op): an empty batch returns successfully and
leaves both tables unchanged, for every database state and even under an
injected engine fault (it never touches storage). -/
theorem store_pod_data_batch_empty_noop (fault : Bool) (db : DB) (now : Int) :
    store_pod_data_batch fault db now [] = (db, none) := rfl

/-- Counterexample to C3: a batch row with `cpu_request = -1` does not
yield a stored clamped value — the insert fails (schema CHECK) and
nothing at all is stored. -/
theorem negative_value_not_clamped_cex :
    (store_pod_data_batch false emptyDB 0 [itemNeg]).1 = emptyDB ∧
    (store_pod_data_batch false emptyDB 0 [itemNeg]).2.isSome = true :=
  ⟨by decide, by decide⟩

/-- C3 as amended: ingestion never clamps on either entry point —
`None` numerics are coerced to 0 during normalization, but a negative
resource value makes the insert fail with a wrapped error and leaves the
table unchanged, both for `store_pod_data_batch` (a batch holding a row
that normalizes to a negative resource field) and for `store_pod_data`
(a resource/usage dict with a negative value). -/
theorem negative_resource_value_rejected (fault : Bool) (db : DB) (now : Int)
    (items : List RawItem) (item : RawItem) (n : NormItem)
    (hmem : item ∈ items) (hnorm : normalize_and_validate item = Except.ok n)
    (hneg : n.cpu_req < 0 ∨ n.cpu_lim < 0 ∨ n.cpu_use < 0 ∨
      n.mem_req < 0 ∨ n.mem_lim < 0 ∨ n.mem_use < 0)
    (ns : String) (pod : Pod) (pod_type app_name : String)
    (resources : ResourceSpec) (metrics : UsageMetrics)
    (hnegS : resources.cpu_request.getD 0 < 0 ∨
      resources.cpu_limit.getD 0 < 0 ∨ metrics.cpu_usage.getD 0 < 0 ∨
      resources.memory_request.getD 0 < 0 ∨
      resources.memory_limit.getD 0 < 0 ∨ metrics.memory_usage.getD 0 < 0) :
    ((store_pod_data_batch fault db now items).2.isSome = true ∧
     (store_pod_data_batch fault db now items).1 = db) ∧
    ((store_pod_data fault db now ns pod pod_type app_name resources
        metrics).2.isSome = true ∧
     (store_pod_data fault db now ns pod pod_type app_name resources
        metrics).1 = db) := by
  have hsome : (store_pod_data_batch fault db now items).2.isSome = true := by
    by_contra hnone
    have h0 : (store_pod_data_batch fault db now items).2 = none :=
      Option.not_isSome_iff_eq_none.mp hnone
    obtain ⟨normalized, hmap, hh, he, hv⟩ :=
      store_batch_success fault db now items
        (store_pod_data_batch fault db now items).1 (by rw [← h0])
    rcases exceptMapM_mem_fwd normalize_and_validate items normalized hmap
      item hmem with ⟨y, hy, hfy⟩
    have hyn : y = n := Except.ok.inj (hfy.symm.trans hnorm)
    subst hyn
    have hrow := hv (toPodRow now y) (List.mem_map_of_mem (toPodRow now) hy)
    have hviol : violatesTableChecks (toPodRow now y) = true := by
      rcases hneg with hx | hx | hx | hx | hx | hx <;>
        simp [violatesTableChecks, toPodRow, hx]
    rw [hviol] at hrow
    cases hrow
  refine ⟨⟨hsome, store_batch_fst_of_err fault db now items hsome⟩, ?_⟩
  rcases h : sanitize_pod_name pod.metadata.name with e | pname
  · constructor <;> simp [store_pod_data, h]
  · have hviolS : violatesTableChecks
        { timestamp := now
        , ns := pyStrip ns
        , pod_name := pname
        , pod_type := pod_type
        , app_name := if app_name = "" then pname else pyStrip app_name
        , status := pod.status.phase
        , cpu_request := resources.cpu_request.getD 0
        , cpu_limit := resources.cpu_limit.getD 0
        , cpu_usage := metrics.cpu_usage.getD 0
        , memory_request := resources.memory_request.getD 0
        , memory_limit := resources.memory_limit.getD 0
        , memory_usage := metrics.memory_usage.getD 0
        , node_name := pod.spec.node_name
        , creation_timestamp := pod.metadata.creation_timestamp
        , deletion_timestamp := none
        , labels := pod.metadata.labels.getD "\x7b\x7d"
        , annotations := pod.metadata.annotations.getD "\x7b\x7d"
        , container_restarts := pod.status.container_restart_counts.foldl
            (· + ·) 0
        , is_active := true } = true := by
      rcases hnegS with hx | hx | hx | hx | hx | hx <;>
        simp [violatesTableChecks, hx]
    constructor <;> simp [store_pod_data, h, hviolS]

/-- The value `normalize_and_validate` yields on `itemNeg`. -/
def normNeg : NormItem :=
  { ns := "ns1", pod_name := "pod-a", pod_type := "driver", app_name := "app1"
  , status := "Running", cpu_req := -1, cpu_lim := 2, cpu_use := 1
  , mem_req := 100, mem_lim := 200, mem_use := 150
  , node_name := some "n1", creation_ts := some 5, labels := "k:v"
  , annotations := "k:v", restarts := 0 }

/-- A pod object handed to `store_pod_data` in the C3 witness. -/
def podW : Pod :=
  { metadata := { name := "pod-a", labels := some "k:v"
                , annotations := some "k:v", creation_timestamp := some 5 }
  , spec := { node_name := some "n1" }
  , status := { phase := "Running", container_restart_counts := [0] } }

/-- A resource dict with a negative `cpu_request`. -/
def resourcesNeg : ResourceSpec :=
  { cpu_request := some (-1), cpu_limit := some 2
  , memory_request := some 100, memory_limit := some 200 }

/-- A benign usage dict. -/
def metricsOk : UsageMetrics :=
  { cpu_usage := some 1, memory_usage := some 150 }

/-- Witness for the amended C3 at concrete negative-valued inputs, on
both the batch and the single-insert entry points. -/
theorem negative_resource_value_rejected_witness :
    ((store_pod_data_batch false emptyDB 0 [itemNeg]).2.isSome = true ∧
     (store_pod_data_batch false emptyDB 0 [itemNeg]).1 = emptyDB) ∧
    ((store_pod_data false emptyDB 0 "ns1" podW "driver" "app1" resourcesNeg
        metricsOk).2.isSome = true ∧
     (store_pod_data false emptyDB 0 "ns1" podW "driver" "app1" resourcesNeg
        metricsOk).1 = emptyDB) :=
  negative_resource_value_rejected false emptyDB 0 [itemNeg] itemNeg normNeg
    (by decide) (by decide) (Or.inl (by decide))
    "ns1" podW "driver" "app1" resourcesNeg metricsOk (Or.inl (by decide))

theorem sanitize_mapM_of_nonempty (L : List String) (h : ∀ s ∈ L, s ≠ "") :
    L.mapM sanitize_pod_name = Except.ok (L.map sanitizeName) :=
  exceptMapM_map sanitize_pod_name sanitizeName L
    (fun s hs => by rw [sanitize_pod_name, if_neg (h s hs)])

/-- An active row named `a` in namespace `ns` (used by counterexamples). -/
def rowActiveA : PodRow :=
  { timestamp := 0, ns := "ns", pod_name := "a", pod_type := "driver"
  , app_name := "app", status := "Running", cpu_request := 1, cpu_limit := 1
  , cpu_usage := 1, memory_request := 1, memory_limit := 1, memory_usage := 1
  , node_name := none, creation_timestamp := none, deletion_timestamp := none
  , labels := "k:v", annotations := "k:v", container_restarts := 0
  , is_active := true }

/-- A database holding only `rowActiveA`. -/
def dbOneActive : DB := { pod_history := [rowActiveA], pod_events := [] }

/-- Counterexample to C2: the database holds one active row of namespace
`ns` named `a`; the observed list is `[" a"]`, which does not contain
`a`, so the claim requires the row to be deactivated — but the code
compares against the sanitized (stripped) names and leaves the row
untouched. -/
theorem mark_pods_inactive_raw_membership_cex :
    rowActiveA.ns = "ns" ∧ rowActiveA.pod_name = "a" ∧
    rowActiveA.is_active = true ∧ ("a" ∉ ([" a"] : List String)) ∧
    mark_pods_inactive false dbOneActive 5 "ns" [" a"] = (dbOneActive, none) :=
  ⟨rfl, rfl, rfl, by decide, by decide⟩

/-- C2 as amended: `mark_pods_inactive` strips the namespace and tests
membership against the sanitized names; given a list of non-empty names
it succeeds and flips exactly the active rows of the stripped namespace
whose `pod_name` is not among the sanitized names, setting their
`deletion_timestamp` and touching nothing else (an empty list deactivates
every active row of the namespace, since no name is in the empty list). -/
theorem mark_pods_inactive_sanitized_spec (db : DB) (now : Int) (ns : String)
    (L : List String) (hL : ∀ s ∈ L, s ≠ "") :
    mark_pods_inactive false db now ns L =
      ({ pod_history := db.pod_history.map (fun r =>
           if r.ns = pyStrip ns ∧ r.is_active = true ∧
              r.pod_name ∉ L.map sanitizeName
           then { r with is_active := false, deletion_timestamp := some now }
           else r)
       , pod_events := db.pod_events }, none) := by
  rw [mark_pods_inactive, sanitize_mapM_of_nonempty L hL]
  by_cases hnil : L.map sanitizeName = []
  · rw [hnil]
    simp [deactivateRow]
  · simp only [Bool.false_eq_true, if_false]
    rw [if_pos hnil]
    rfl

/-- Witness for the amended C2: one active row, observed list `["b"]`. -/
theorem mark_pods_inactive_sanitized_spec_witness :
    mark_pods_inactive false dbOneActive 5 "ns" ["b"] =
      ({ pod_history := dbOneActive.pod_history.map (fun r =>
           if r.ns = pyStrip "ns" ∧ r.is_active = true ∧
              r.pod_name ∉ (["b"] : List String).map sanitizeName
           then { r with is_active := false, deletion_timestamp := some 5 }
           else r)
       , pod_events := dbOneActive.pod_events }, none) :=
  mark_pods_inactive_sanitized_spec dbOneActive 5 "ns" ["b"] (by decide)

/-- C4 (retention clamp): `cleanup_old_data` behaves exactly as with the
retention clamped into [1, 365] (so -5 acts as 1 and 9999 as 365); on
success it keeps exactly the rows aged at most the clamped number of
days and reports both per-table deletion counts together with the
clamped effective retention value. -/
theorem cleanup_old_data_clamp_spec (fault : Bool) (db : DB) (now d : Int) :
    cleanup_old_data fault db now d =
      cleanup_old_data fault db now (max 1 (min 365 d)) ∧
    (cleanup_old_data false db now d).1.pod_history =
      db.pod_history.filter (fun r =>
        !decide (r.timestamp < now - max 1 (min 365 d) * secondsPerDay)) ∧
    (cleanup_old_data false db now d).1.pod_events =
      db.pod_events.filter (fun r =>
        !decide (r.timestamp < now - max 1 (min 365 d) * secondsPerDay)) ∧
    (cleanup_old_data false db now d).2 = Except.ok
      { history_records_deleted := db.pod_history.countP (fun r =>
          decide (r.timestamp < now - max 1 (min 365 d) * secondsPerDay))
      , events_deleted := db.pod_events.countP (fun r =>
          decide (r.timestamp < now - max 1 (min 365 d) * secondsPerDay))
      , retention_days := max 1 (min 365 d) } := by
  have hclamp : max 1 (min 365 (max 1 (min 365 d))) = max 1 (min 365 d) := by
    simp only [min_def, max_def]
    split_ifs <;> omega
  refine ⟨?_, rfl, rfl, rfl⟩
  cases fault with
  | true => rfl
  | false =>
    simp only [cleanup_old_data, hclamp]

/-- Counterexample to C6: under an induced storage failure
`list_pod_names` does not propagate a wrapped error — its handler
swallows the failure and returns the empty list (contrast
`get_historical_data`, which propagates on the same induced failure). -/
theorem list_pod_names_swallows_failure_cex :
    list_pod_names true dbOneActive none = .ok [] ∧
    get_historical_data true dbOneActive 0 "ns" 24 none =
      .error (.databaseError "Failed to retrieve historical data") :=
  ⟨rfl, rfl⟩

/-- C6 as amended: an underlying storage failure is propagated as a
wrapped `DatabaseError` by `get_historical_data`, `get_pod_timeline` and
`export_historical_data`; `list_pod_names` instead degrades to the empty
list, and `get_database_stats` degrades to a best-effort result carrying
`health_status = "error"` and an error message. -/
theorem query_failure_propagation_spec (db : DB) (now : Int)
    (ns pod_name format journal_mode : String)
    (hours_back start_dt end_dt : Int) (app_name nsq : Option String) :
    get_historical_data true db now ns hours_back app_name =
      .error (.databaseError "Failed to retrieve historical data") ∧
    get_pod_timeline true db ns pod_name =
      .error (.databaseError "Failed to retrieve pod timeline") ∧
    export_historical_data true db ns start_dt end_dt format =
      .error (.databaseError "Data export failed") ∧
    list_pod_names true db nsq = .ok [] ∧
    (get_database_stats true db journal_mode).health_status = "error" ∧
    (get_database_stats true db journal_mode).error_msg.isSome = true := by
  refine ⟨rfl, ?_, ?_, rfl, rfl, rfl⟩
  · rcases h : sanitize_pod_name pod_name with e | p <;>
      simp [get_pod_timeline, h]
  · by_cases h : pyStrip format.toLower ≠ "json" ∧ pyStrip format.toLower ≠ "csv" <;>
      simp [export_historical_data, h]

/-- C5 (time-window query): for a whitespace-free namespace, positive
`hours_back` and a well-formed optional `app_name`, the call succeeds
and returns rows of that namespace with `timestamp ≥ now − hours_back`
hours (and matching `app_name` when given), newest first, at most 10000
of them — and exactly the matching rows whenever they fit the cap. -/
theorem get_historical_data_window_spec (db : DB) (now : Int) (ns : String)
    (hours_back : Int) (app_name : Option String)
    (hns : pyStrip ns = ns) (hpos : 0 < hours_back)
    (happ : ∀ a, app_name = some a → a ≠ "" ∧ pyStrip a = a) :
    ∃ out, get_historical_data false db now ns hours_back app_name =
      Except.ok out ∧
    out.length ≤ 10000 ∧
    List.Sorted tsDesc out ∧
    (∀ r ∈ out, r ∈ db.pod_history ∧ r.ns = ns ∧
      now - hours_back * secondsPerHour ≤ r.timestamp ∧
      (∀ a, app_name = some a → r.app_name = a)) ∧
    ((db.pod_history.filter (fun r => r.ns == ns &&
        decide (now - hours_back * secondsPerHour ≤ r.timestamp) &&
        app_name.all (fun a => r.app_name == a))).length ≤ 10000 →
      out.Perm (db.pod_history.filter (fun r => r.ns == ns &&
        decide (now - hours_back * secondsPerHour ≤ r.timestamp) &&
        app_name.all (fun a => r.app_name == a)))) := by
  have hdef : get_historical_data false db now ns hours_back app_name =
      Except.ok ((List.insertionSort tsDesc (db.pod_history.filter (fun r =>
        r.ns == pyStrip ns &&
        decide (now - hours_back * secondsPerHour ≤ r.timestamp) &&
        appNameClause app_name r))).take 10000) := rfl
  have hpred : ∀ r : PodRow,
      (r.ns == pyStrip ns &&
        decide (now - hours_back * secondsPerHour ≤ r.timestamp) &&
        appNameClause app_name r) =
      (r.ns == ns &&
        decide (now - hours_back * secondsPerHour ≤ r.timestamp) &&
        app_name.all (fun a => r.app_name == a)) := by
    intro r
    rw [hns]
    cases app_name with
    | none => rfl
    | some a =>
      rcases happ a rfl with ⟨ha1, ha2⟩
      show (_ && _ && appNameClause (some a) r) = _
      rw [appNameClause, if_neg ha1, ha2]
      rfl
  have hfeq : db.pod_history.filter (fun r =>
      r.ns == pyStrip ns &&
      decide (now - hours_back * secondsPerHour ≤ r.timestamp) &&
      appNameClause app_name r) =
    db.pod_history.filter (fun r => r.ns == ns &&
      decide (now - hours_back * secondsPerHour ≤ r.timestamp) &&
      app_name.all (fun a => r.app_name == a)) :=
    List.filter_congr (fun r _ => hpred r)
  refine ⟨_, hdef, List.length_take_le _ _,
    List.Pairwise.sublist (List.take_sublist _ _)
      (List.sorted_insertionSort tsDesc _), ?_, ?_⟩
  · intro r hr
    have hr2 := List.take_subset _ _ hr
    have hr3 := (List.perm_insertionSort tsDesc _).subset hr2
    rw [hfeq] at hr3
    obtain ⟨hmem, hp⟩ := List.mem_filter.mp hr3
    cases app_name with
    | none =>
      simp only [Bool.and_eq_true, beq_iff_eq, decide_eq_true_eq] at hp
      exact ⟨hmem, hp.1.1, hp.1.2, fun a ha => nomatch ha⟩
    | some a =>
      simp only [Option.all_some, Bool.and_eq_true, beq_iff_eq,
        decide_eq_true_eq] at hp
      obtain ⟨⟨h1, h2⟩, h3⟩ := hp
      refine ⟨hmem, h1, h2, fun a2 ha2 => ?_⟩
      injection ha2 with ha2
      subst ha2
      exact h3
  · intro hlen
    rw [← hfeq] at hlen
    have hsortlen : (List.insertionSort tsDesc
        (db.pod_history.filter (fun r =>
          r.ns == pyStrip ns &&
          decide (now - hours_back * secondsPerHour ≤ r.timestamp) &&
          appNameClause app_name r))).length ≤ 10000 := by
      rw [(List.perm_insertionSort tsDesc _).length_eq]
      exact hlen
    rw [List.take_of_length_le hsortlen]
    exact hfeq ▸ (List.perm_insertionSort tsDesc _)

/-- A row inside the 24-hour window (at `now − 2h` for `now = 200000`). -/
def rowRecent : PodRow := { rowActiveA with ns := "ns1", timestamp := 192800 }

/-- A row far outside the 24-hour window ((at `now − 50h`). -/
def rowStale : PodRow :=
  { rowActiveA with ns := "ns1", pod_name := "b", timestamp := 20000 }

/-- The two-row database of the spec's P6 scenario. -/
def dbP6 : DB := { pod_history := [rowRecent, rowStale], pod_events := [] }

/-- Witness for C5 at the P6 scenario (rows at now−2h and now−50h,
window 24h). -/
theorem get_historical_data_window_spec_witness :
    ∃ out, get_historical_data false dbP6 200000 "ns1" 24 none =
      Except.ok out ∧
    out.length ≤ 10000 ∧
    List.Sorted tsDesc out ∧
    (∀ r ∈ out, r ∈ dbP6.pod_history ∧ r.ns = "ns1" ∧
      (200000 : Int) - 24 * secondsPerHour ≤ r.timestamp ∧
      (∀ a, (none : Option String) = some a → r.app_name = a)) ∧
    ((dbP6.pod_history.filter (fun r => r.ns == "ns1" &&
        decide ((200000 : Int) - 24 * secondsPerHour ≤ r.timestamp) &&
        (none : Option String).all (fun a => r.app_name == a))).length ≤
          10000 →
      out.Perm (dbP6.pod_history.filter (fun r => r.ns == "ns1" &&
        decide ((200000 : Int) - 24 * secondsPerHour ≤ r.timestamp) &&
        (none : Option String).all (fun a => r.app_name == a)))) :=
  get_historical_data_window_spec dbP6 200000 "ns1" 24 none (by decide)
    (by decide) (fun a ha => nomatch ha)

theorem acquireN_fresh (m : Nat) : ∀ k, k ≤ m →
    acquireN (mkPool m) k =
      ((List.range k).map some,
       { max_connections := m, available_connections := []
       , in_use_connections := (List.range k).reverse, next_handle := k }) := by
  intro k
  induction k with
  | zero => intro _; rfl
  | succ k ih =>
    intro hk
    rw [acquireN, ih (Nat.le_of_succ_le hk)]
    simp only [get_connection, List.length_reverse, List.length_range]
    rw [if_pos (Nat.lt_of_succ_le hk)]
    rw [List.range_succ]
    simp

/-- C7 (pool exhaustion): starting from a fresh pool, `max_connections`
acquisitions with no release all hand out handles; the next
`get_connection` fails fast with the distinguished exhaustion signal
`none` — no usable handle, no exception, no state change (so the
condition is retryable and distinct from a storage failure, which
surfaces as a raised error) — and releasing any held handle makes the
next acquisition succeed again. -/
theorem pool_exhaustion_fail_fast (m : Nat) :
    (∀ r ∈ (acquireN (mkPool m) m).1, r.isSome = true) ∧
    (acquireN (mkPool m) m).1.length = m ∧
    get_connection (acquireN (mkPool m) m).2 =
      (none, (acquireN (mkPool m) m).2) ∧
    (∀ c ∈ (acquireN (mkPool m) m).2.in_use_connections,
      (get_connection (return_connection (acquireN (mkPool m) m).2
        (some c)).1).1.isSome = true) := by
  rw [acquireN_fresh m m le_rfl]
  refine ⟨?_, ?_, ?_, ?_⟩
  · intro r hr
    rcases List.mem_map.mp hr with ⟨i, hi, hri⟩
    rw [← hri]
    rfl
  · simp
  · show get_connection
        ⟨m, [], (List.range m).reverse, m⟩ = _
    simp only [get_connection, List.length_reverse, List.length_range]
    rw [if_neg (Nat.lt_irrefl m)]
  · intro c hc
    have hcm : c < m := List.mem_range.mp (List.mem_reverse.mp hc)
    have h0m : 0 < m := Nat.lt_of_le_of_lt (Nat.zero_le c) hcm
    simp only [return_connection, if_pos hc]
    rw [if_pos (by simpa using h0m)]
    rfl

/-- C10 (foreign-handle release is a no-op): releasing `None` or a
handle outside the in-use set changes no pool bookkeeping and closes
nothing; in particular a second release of the same handle changes
nothing (the in-use set holds no duplicates). -/
theorem return_connection_foreign_noop (p : DatabaseConnectionPool) (c : Nat)
    (hc : c ∉ p.in_use_connections) (hnd : p.in_use_connections.Nodup) :
    return_connection p none = (p, false) ∧
    return_connection p (some c) = (p, false) ∧
    (∀ d : Nat, return_connection (return_connection p (some d)).1 (some d) =
      ((return_connection p (some d)).1, false)) := by
  refine ⟨rfl, ?_, ?_⟩
  · simp [return_connection, hc]
  · intro d
    by_cases hd : d ∈ p.in_use_connections
    · have herase : d ∉ p.in_use_connections.erase d := fun hmem =>
        ((hnd.mem_erase_iff).mp hmem).1 rfl
      simp only [return_connection, if_pos hd]
      by_cases hcap : p.available_connections.length < p.max_connections
      · rw [if_pos hcap]
        simp [return_connection, herase]
      · rw [if_neg hcap]
        simp [return_connection, herase]
    · simp [return_connection, hd]

/-- A pool with one in-use handle (id 5) and capacity 2. -/
def poolOneInUse : DatabaseConnectionPool :=
  { max_connections := 2, available_connections := []
  , in_use_connections := [5], next_handle := 6 }

/-- Witness for C10: releasing the foreign handle 9 changes nothing. -/
theorem return_connection_foreign_noop_witness :
    return_connection poolOneInUse (some 9) = (poolOneInUse, false) :=
  (return_connection_foreign_noop poolOneInUse 9 (by decide) (by decide)).2.1
